import Mathlib

/-!
Shallow embedding of the route-monitor-operator convergence core.

Pure Lean models of the functions in
`src/controllers/routemonitor/routemonitor_supplement.go` (the RouteMonitor
reconciler supplement and the `pkg/servicemonitor` package).  Store calls and
collaborator calls are represented by explicit oracle inputs: every external
call's outcome is a parameter, and the model returns the control signal, the
error, the mutated snapshot fields, and a trace of the store operations the
code would issue.  Collaborators whose bodies are not part of the analysed
sources (the `pkg/reconcile` common helpers, `pkg/alert`, `pkg/util/reconcile`)
are modelled from the design document and marked as such in their doc comments.
-/

namespace RouteMonitorOperator

/-- Errors returned by collaborators and the store.  `noHost` models
`customerrors.NoHost` (the "no target URL" error); every other error is
carried as its message text. -/
inductive GoErr where
  | noHost
  | custom (msg : String)
deriving DecidableEq

/-- A namespaced name: the identity of a derived resource, and the type of the
reference fields in the parent's status (`v1alpha1.NamespacedName` and
`types.NamespacedName` collapse to this one shape). -/
structure NamespacedName where
  name : String
  ns : String
deriving DecidableEq

/-- The absent sentinel for a derived-resource reference: empty name and
empty namespace. -/
def absentRef : NamespacedName := { name := "", ns := "" }

/-- Modelled from the spec: the tri-state ControlSignal of `utilreconcile`
(not under src/) — `Continue`, `Stop`, or `Requeue`; the accompanying error
travels alongside it. -/
inductive Result where
  | Continue
  | Stop
  | Requeue
deriving DecidableEq

/-- Outcome of a store `Get` call: the object, not-found, or another error. -/
inductive StoreGet (α : Type) where
  | found (a : α)
  | notFound
  | otherErr (e : GoErr)
deriving DecidableEq

/-- One relabel configuration of a ServiceMonitor endpoint
(`monitoringv1.RelabelConfig` as used by the template). -/
structure RelabelConfig where
  replacement : String
  targetLabel : String
deriving DecidableEq

/-- A ServiceMonitor endpoint (`monitoringv1.Endpoint` as used by the
template: port, interval, scrape timeout, path, scheme, probe params and
relabel configurations). -/
structure Endpoint where
  port : String
  interval : String
  scrapeTimeout : String
  path : String
  scheme : String
  params : List (String × List String)
  metricRelabelConfigs : List RelabelConfig
deriving DecidableEq

/-- The spec payload of a ServiceMonitor (`monitoringv1.ServiceMonitorSpec`):
the part compared by the diff gate and overwritten on update. -/
structure ServiceMonitorSpec where
  endpoints : List Endpoint
  selectorMatchLabels : List (String × String)
  namespaceSelectorMatchNames : List String
deriving DecidableEq

/-- A ServiceMonitor object: identity (name, namespace) plus spec payload. -/
structure ServiceMonitor where
  name : String
  ns : String
  spec : ServiceMonitorSpec
deriving DecidableEq

/-- A store operation issued by the servicemonitor package, recorded in
traces so that theorems can speak about which calls were made. -/
inductive SMOp where
  | get (nn : NamespacedName)
  | create (sm : ServiceMonitor)
  | update (sm : ServiceMonitor)
  | delete (sm : ServiceMonitor)
deriving DecidableEq

/-- Model of `ServiceMonitor.UpdateServiceMonitorDeployment`: fetch the
deployed object by the template's identity; a non-not-found fetch error is
returned unchanged; not-found leads to `Create` of the template; otherwise the
comparer (structural equality on the spec payload) gates an `Update` that
overwrites only the deployed object's spec.  `getRes` is the fetch outcome,
`createErr` and `updateErr` the outcomes of the respective store writes. -/
def UpdateServiceMonitorDeployment (template : ServiceMonitor)
    (getRes : StoreGet ServiceMonitor) (createErr updateErr : Option GoErr) :
    List SMOp × Option GoErr :=
  let nn : NamespacedName := { name := template.name, ns := template.ns }
  match getRes with
  | .otherErr e => ([SMOp.get nn], some e)
  | .notFound => ([SMOp.get nn, SMOp.create template], createErr)
  | .found deployed =>
    if deployed.spec = template.spec then
      ([SMOp.get nn], none)
    else
      ([SMOp.get nn, SMOp.update { deployed with spec := template.spec }], updateErr)

/-- Model of `ServiceMonitor.DeleteServiceMonitorDeployment`: return nil
immediately when the ref's name or namespace is empty; otherwise fetch by the
ref (not-found is ignored, other fetch errors are surfaced) and delete the
fetched object.  The `isHCP` flag selects the API group of the resource in the
source; both branches perform the identical fetch-then-delete sequence, so the
model keeps the flag but the behaviour does not depend on it. -/
def DeleteServiceMonitorDeployment (ref : NamespacedName) (isHCP : Bool)
    (getRes : StoreGet ServiceMonitor) (deleteErr : Option GoErr) :
    List SMOp × Option GoErr :=
  if ref.name = "" ∨ ref.ns = "" then
    ([], none)
  else
    let nn : NamespacedName := { name := ref.name, ns := ref.ns }
    match getRes with
    | .notFound => ([SMOp.get nn], none)
    | .otherErr e => ([SMOp.get nn], some e)
    | .found r => ([SMOp.get nn, SMOp.delete r], deleteErr)

/-- Modelled from the spec: the SLO descriptor of the parent's spec
(`v1alpha1.SloSpec`, not under src/).  Per the design document it either
disables the SLO (zero value), fails to parse, or renders to an SLO
expression text. -/
inductive SloSpec where
  | disabled
  | invalid (msg : String)
  | valid (expr : String)
deriving DecidableEq

/-- The spec sub-object of a RouteMonitor: the referenced Route's identity,
the skip flag for the alert-rule resource, and the SLO descriptor. -/
structure RouteMonitorSpec where
  routeName : String
  routeNs : String
  skipPrometheusRule : Bool
  slo : SloSpec
deriving DecidableEq

/-- The status sub-object of a RouteMonitor: the derived-resource references,
the resolved target URL and the error-status text. -/
structure RouteMonitorStatus where
  serviceMonitorRef : NamespacedName
  prometheusRuleRef : NamespacedName
  errorStatus : String
  routeURL : String
deriving DecidableEq

/-- The parent resource (`v1alpha1.RouteMonitor`): identity, spec, status and
finalizer markers. -/
structure RouteMonitor where
  name : String
  ns : String
  spec : RouteMonitorSpec
  status : RouteMonitorStatus
  finalizers : List String
deriving DecidableEq

/-- The zero-value RouteMonitor, against which `GetRouteMonitor` compares the
fetched object (`reflect.DeepEqual` with an empty struct). -/
def emptyRouteMonitor : RouteMonitor :=
  { name := ""
    ns := ""
    spec := { routeName := "", routeNs := "", skipPrometheusRule := false, slo := .disabled }
    status := { serviceMonitorRef := absentRef, prometheusRuleRef := absentRef
                errorStatus := "", routeURL := "" }
    finalizers := [] }

/-- Modelled from the spec: the current finalizer marker string of the
RouteMonitor controller (`consts.FinalizerKey`, not under src/). -/
def FinalizerKey : String := "routemonitor.routemonitoroperator.monitoring.openshift.io/finalizer"

/-- Modelled from the spec: the deprecated legacy finalizer marker string
(`consts.PrevFinalizerKey`, not under src/), removed opportunistically. -/
def PrevFinalizerKey : String := "routemonitor.monitoring.openshift.io/routemonitorcontroller"

/-- Message text of an error, as `err.Error()` would render it. -/
def errMsg : GoErr → String
  | .noHost => "no host in spec"
  | .custom msg => msg

/-- Modelled from the spec: `SetResourceReference` (pkg/reconcile, not under
src/) is the compare-and-set of a status reference field (§4.5): it assigns
the new value and reports whether the field changed. -/
def SetResourceReference (field newVal : NamespacedName) : Bool × NamespacedName :=
  if field = newVal then (false, field) else (true, newVal)

/-- Modelled from the spec: `SetErrorStatus` (pkg/reconcile, not under src/)
is the compare-and-assign of the error-status text (§4.5, §7): a present
error is recorded when the field is empty, an absent error flushes a
non-empty field, and the returned flag reports whether the field changed. -/
def SetErrorStatus (errorStatus : String) (err : Option GoErr) : Bool × String :=
  match err with
  | some e => if errorStatus = "" then (true, errMsg e) else (false, errorStatus)
  | none => if errorStatus = "" then (false, errorStatus) else (true, "")

/-- Modelled from the spec: `ParseMonitorSLOSpecs` (pkg/reconcile, not under
src/).  An unresolved target URL yields the no-target error (§4.6 case 2);
an SLO disabled by configuration yields the empty expression (§4.6 case 3);
a parse failure yields an error (§4.6 case 4); otherwise the rendered SLO
expression is returned. -/
def ParseMonitorSLOSpecs (routeURL : String) (slo : SloSpec) : String × Option GoErr :=
  if routeURL = "" then ("", some GoErr.noHost)
  else
    match slo with
    | .disabled => ("", none)
    | .invalid msg => ("", some (GoErr.custom msg))
    | .valid expr => (expr, none)

/-- Modelled from the spec: `UpdateMonitorResourceStatus` (pkg/reconcile, not
under src/) persists the parent's status; a store failure surfaces as
`Requeue` with that error, and a successful write stops the invocation so the
next one resumes at the following step (§4.5, §6). -/
def UpdateMonitorResourceStatus (storeErr : Option GoErr) : Result × Option GoErr :=
  match storeErr with
  | some e => (.Requeue, some e)
  | none => (.Stop, none)

/-- Modelled from the spec: `UpdateMonitorResource` (pkg/reconcile, not under
src/) persists the parent object itself (finalizer mutations); a store
failure surfaces as `Requeue`, success stops the invocation (§4.3, §6). -/
def UpdateMonitorResource (storeErr : Option GoErr) : Result × Option GoErr :=
  match storeErr with
  | some e => (.Requeue, some e)
  | none => (.Stop, none)

/-- Modelled from the spec: `DeleteFinalizer` (pkg/reconcile, not under src/)
removes the marker from the finalizer set and reports whether it was present
(§4.3). -/
def DeleteFinalizer (fins : List String) (key : String) : Bool × List String :=
  (fins.contains key, fins.filter (fun k => k ≠ key))

/-- A PrometheusRule object, reduced to its identity: its body is rendered by
`pkg/alert` (excluded templating collaborator). -/
structure PromRule where
  name : String
  ns : String
deriving DecidableEq

/-- Modelled from the spec: `DeletePrometheusRuleDeployment` (pkg/alert, not
under src/) is the ensureAbsent primitive of §4.2 for the alert-rule
resource: an absent ref is a no-op, a not-found fetch is a no-op, a found
resource is deleted, and store errors other than not-found are surfaced.  The
returned flag records whether a store delete was issued. -/
def DeletePrometheusRuleDeployment (ref : NamespacedName)
    (getRes : StoreGet PromRule) (deleteErr : Option GoErr) : Bool × Option GoErr :=
  if ref = absentRef then (false, none)
  else
    match getRes with
    | .notFound => (false, none)
    | .otherErr e => (false, some e)
    | .found _ => (true, deleteErr)

/-- Observable outcome of a reconciler step: the control signal, the error,
the status snapshot as the step left it, whether the step called the
status-persist helper, whether it invoked the ensure-absent primitive on the
alert resource, and whether it invoked the ensure-exists (deployment update)
primitive. -/
structure StepOut where
  result : Result
  err : Option GoErr
  status : RouteMonitorStatus
  persisted : Bool
  ensureAbsentCalled : Bool
  existsCalled : Bool
deriving DecidableEq

/-- Oracle inputs of `EnsurePrometheusRuleExists`: the fetch outcome seen by
the PrometheusRule delete, the outcome of its store delete, the outcome of
the PrometheusRule deployment update (ensure-exists), and the outcome of the
status-persist write. -/
structure PromOracles where
  prGet : StoreGet PromRule
  prDeleteErr : Option GoErr
  prUpdateDeployErr : Option GoErr
  statusUpdateErr : Option GoErr

/-- Model of `RouteMonitorReconciler.EnsurePrometheusRuleExists`.  Skip flag
set: delete the PrometheusRule, clear the ref, persist the status only when
the ref changed, otherwise `Continue`.  Skip unset: parse the SLO; a changed
error status is persisted at once; an empty parsed expression deletes the
PrometheusRule, clears the ref, persists on change and otherwise `Stop`s;
a non-empty expression updates the deployment from the template and records
the ref, persisting on change and otherwise `Continue`ing. -/
def EnsurePrometheusRuleExists (rm : RouteMonitor) (o : PromOracles) : StepOut :=
  if rm.spec.skipPrometheusRule then
    let del := DeletePrometheusRuleDeployment rm.status.prometheusRuleRef o.prGet o.prDeleteErr
    match del.2 with
    | some e => ⟨.Requeue, some e, rm.status, false, true, false⟩
    | none =>
      let set := SetResourceReference rm.status.prometheusRuleRef absentRef
      let st := { rm.status with prometheusRuleRef := set.2 }
      if set.1 then
        let upd := UpdateMonitorResourceStatus o.statusUpdateErr
        ⟨upd.1, upd.2, st, true, true, false⟩
      else
        ⟨.Continue, none, st, false, true, false⟩
  else
    let parsed := ParseMonitorSLOSpecs rm.status.routeURL rm.spec.slo
    let setES := SetErrorStatus rm.status.errorStatus parsed.2
    let st0 := { rm.status with errorStatus := setES.2 }
    if setES.1 then
      let upd := UpdateMonitorResourceStatus o.statusUpdateErr
      ⟨upd.1, upd.2, st0, true, false, false⟩
    else if parsed.1 = "" then
      let del := DeletePrometheusRuleDeployment st0.prometheusRuleRef o.prGet o.prDeleteErr
      match del.2 with
      | some e => ⟨.Requeue, some e, st0, false, true, false⟩
      | none =>
        let set := SetResourceReference st0.prometheusRuleRef absentRef
        let st := { st0 with prometheusRuleRef := set.2 }
        if set.1 then
          let upd := UpdateMonitorResourceStatus o.statusUpdateErr
          ⟨upd.1, upd.2, st, true, true, false⟩
        else
          ⟨.Stop, none, st, false, true, false⟩
    else
      match o.prUpdateDeployErr with
      | some e => ⟨.Requeue, some e, st0, false, false, true⟩
      | none =>
        let nn : NamespacedName := { name := rm.name, ns := rm.ns }
        let set := SetResourceReference st0.prometheusRuleRef nn
        let st := { st0 with prometheusRuleRef := set.2 }
        if set.1 then
          let upd := UpdateMonitorResourceStatus o.statusUpdateErr
          ⟨upd.1, upd.2, st, true, false, true⟩
        else
          ⟨.Continue, none, st, false, false, true⟩

/-- Oracle inputs of `EnsureServiceMonitorExists`: the outcome of the OSD
cluster-id lookup, the outcome of the templated ServiceMonitor deployment
update, and the outcome of the status-persist write. -/
structure SMStepOracles where
  clusterIDRes : Except GoErr String
  templateUpdateErr : Option GoErr
  statusUpdateErr : Option GoErr

/-- Model of `RouteMonitorReconciler.EnsureServiceMonitorExists`: an empty
resolved RouteURL requeues with the no-host error before any store call; then
the cluster id is fetched, the templated ServiceMonitor deployment is
updated, and the ServiceMonitorRef is recorded (persisting the status only on
change). -/
def EnsureServiceMonitorExists (rm : RouteMonitor) (o : SMStepOracles) : StepOut :=
  if rm.status.routeURL = "" then
    ⟨.Requeue, some GoErr.noHost, rm.status, false, false, false⟩
  else
    match o.clusterIDRes with
    | .error e => ⟨.Requeue, some e, rm.status, false, false, false⟩
    | .ok _ =>
      match o.templateUpdateErr with
      | some e => ⟨.Requeue, some e, rm.status, false, false, true⟩
      | none =>
        let nn : NamespacedName := { name := rm.name, ns := rm.ns }
        let set := SetResourceReference rm.status.serviceMonitorRef nn
        let st := { rm.status with serviceMonitorRef := set.2 }
        if set.1 then
          let upd := UpdateMonitorResourceStatus o.statusUpdateErr
          ⟨upd.1, upd.2, st, true, false, true⟩
        else
          ⟨.Continue, none, st, false, false, true⟩

/-- One ingress entry of a Route's status (`routev1.RouteIngress`), reduced
to the host consumed by the controller. -/
structure RouteIngress where
  host : String
deriving DecidableEq

/-- A Route (`routev1.Route`), reduced to the fields the controller reads:
the status ingress list and whether `Spec.TLS` is non-nil. -/
structure Route where
  ingress : List RouteIngress
  tls : Bool
deriving DecidableEq

/-- Error message used when the Route carries no ingress entry. -/
def noIngressMsg : String := "No Ingress: cannot extract route url from the Route resource"

/-- Scheme prepended to the extracted host when the Route's TLS field is
non-nil. -/
def httpsScheme : String := "https://"

/-- Model of `RouteMonitorReconciler.EnsureRouteURLExists`: no ingress or an
empty first host requeues; otherwise the candidate URL is the first ingress
host, prefixed when TLS is present; an unchanged status URL continues with no
write, a changed one is overwritten and persisted. -/
def EnsureRouteURLExists (route : Route) (rm : RouteMonitor)
    (statusUpdateErr : Option GoErr) : StepOut :=
  match route.ingress with
  | [] => ⟨.Requeue, some (GoErr.custom noIngressMsg), rm.status, false, false, false⟩
  | ing :: _ =>
    if ing.host = "" then
      ⟨.Requeue, some GoErr.noHost, rm.status, false, false, false⟩
    else
      let extracted := if route.tls then httpsScheme ++ ing.host else ing.host
      if rm.status.routeURL = extracted then
        ⟨.Continue, none, rm.status, false, false, false⟩
      else
        let st := { rm.status with routeURL := extracted }
        let upd := UpdateMonitorResourceStatus statusUpdateErr
        ⟨upd.1, upd.2, st, true, false, false⟩

/-- Model of `RouteMonitorReconciler.GetRouteMonitor`: a non-not-found fetch
error requeues with that error; not-found stops with no error; a fetched
object deeply equal to the zero value stops with no error; otherwise the
object is returned with `Continue`. -/
def GetRouteMonitor (getRes : StoreGet RouteMonitor) :
    RouteMonitor × Result × Option GoErr :=
  match getRes with
  | .otherErr e => (emptyRouteMonitor, .Requeue, some e)
  | .notFound => (emptyRouteMonitor, .Stop, none)
  | .found rm =>
    if rm = emptyRouteMonitor then (emptyRouteMonitor, .Stop, none)
    else (rm, .Continue, none)

/-- Oracle inputs of the deletion cascade: the shared-infrastructure
accounting outcome, the shared exporter teardown outcome, the fetch and
delete outcomes seen by the ServiceMonitor delete and the PrometheusRule
delete, and the outcome of persisting the parent after finalizer removal. -/
structure CascadeOracles where
  shouldDeleteBBE : Except GoErr Bool
  bbeAbsentErr : Option GoErr
  smGet : StoreGet ServiceMonitor
  smDeleteErr : Option GoErr
  prGet : StoreGet PromRule
  prDeleteErr : Option GoErr
  updateErr : Option GoErr

/-- Observable outcome of the deletion cascade: the control signal, the
error, the finalizer set as the cascade left it, the status snapshot, and
whether the finalizer-removal branch was taken (the current marker was
present, both markers were removed and the parent was persisted). -/
structure CascadeOut where
  result : Result
  err : Option GoErr
  finalizers : List String
  status : RouteMonitorStatus
  removedFinalizer : Bool
deriving DecidableEq

/-- Model of `RouteMonitorReconciler.EnsureMonitorAndDependenciesAbsent`: the
shared-infrastructure accounting, the conditional shared exporter teardown,
the ServiceMonitor delete and the PrometheusRule delete each requeue on error
with the finalizer set untouched; afterwards, if the current finalizer marker
is present, it and the legacy marker are removed and the parent persisted,
otherwise the cascade stops. -/
def EnsureMonitorAndDependenciesAbsent (rm : RouteMonitor) (o : CascadeOracles) :
    CascadeOut :=
  match o.shouldDeleteBBE with
  | .error e => ⟨.Requeue, some e, rm.finalizers, rm.status, false⟩
  | .ok shouldDelete =>
    match (if shouldDelete then o.bbeAbsentErr else none) with
    | some e => ⟨.Requeue, some e, rm.finalizers, rm.status, false⟩
    | none =>
      match (DeleteServiceMonitorDeployment rm.status.serviceMonitorRef false
              o.smGet o.smDeleteErr).2 with
      | some e => ⟨.Requeue, some e, rm.finalizers, rm.status, false⟩
      | none =>
        match (DeletePrometheusRuleDeployment rm.status.prometheusRuleRef
                o.prGet o.prDeleteErr).2 with
        | some e => ⟨.Requeue, some e, rm.finalizers, rm.status, false⟩
        | none =>
          let delFin := DeleteFinalizer rm.finalizers FinalizerKey
          if delFin.1 then
            let delPrev := DeleteFinalizer delFin.2 PrevFinalizerKey
            let upd := UpdateMonitorResource o.updateErr
            ⟨upd.1, upd.2, delPrev.2, rm.status, true⟩
          else
            ⟨.Stop, none, rm.finalizers, rm.status, false⟩

/-! Theorems -/

/-- C3: `UpdateServiceMonitorDeployment` creates the desired template on a
not-found fetch with no update; on a successful fetch it issues an update if
and only if the comparer reports the deployed spec unequal to the template
spec, and the update overwrites only the spec payload of the current object;
equal specs produce zero writes; any fetch error other than not-found is
returned unchanged with no create or update. -/
theorem updateServiceMonitorDeployment_diff_gate :
    ∀ (template deployed : ServiceMonitor) (createErr updateErr : Option GoErr) (e : GoErr),
      UpdateServiceMonitorDeployment template .notFound createErr updateErr =
        ([SMOp.get { name := template.name, ns := template.ns }, SMOp.create template],
          createErr) ∧
      UpdateServiceMonitorDeployment template (.otherErr e) createErr updateErr =
        ([SMOp.get { name := template.name, ns := template.ns }], some e) ∧
      UpdateServiceMonitorDeployment template (.found deployed) createErr updateErr =
        (if deployed.spec = template.spec then
          ([SMOp.get { name := template.name, ns := template.ns }], (none : Option GoErr))
        else
          ([SMOp.get { name := template.name, ns := template.ns },
            SMOp.update { deployed with spec := template.spec }], updateErr)) := by
  intro template deployed createErr updateErr e
  refine ⟨rfl, rfl, ?_⟩
  by_cases h : deployed.spec = template.spec <;>
    simp [UpdateServiceMonitorDeployment, h]

/-- C9: `GetRouteMonitor` stops with a nil error both when the store reports
not-found and when the fetch succeeds with an object deeply equal to the
zero-value RouteMonitor; a non-empty fetched object continues, and any other
fetch error requeues with that error. -/
theorem getRouteMonitor_empty_object_stops :
    ∀ (e : GoErr) (rm : RouteMonitor),
      GetRouteMonitor .notFound = (emptyRouteMonitor, Result.Stop, (none : Option GoErr)) ∧
      GetRouteMonitor (.otherErr e) = (emptyRouteMonitor, Result.Requeue, some e) ∧
      GetRouteMonitor (.found rm) =
        (if rm = emptyRouteMonitor then
          (emptyRouteMonitor, Result.Stop, (none : Option GoErr))
        else (rm, Result.Continue, (none : Option GoErr))) := by
  intro e rm
  refine ⟨rfl, rfl, ?_⟩
  by_cases h : rm = emptyRouteMonitor <;> simp [GetRouteMonitor, h]

/-- C8: `DeleteServiceMonitorDeployment` treats a ref as absent — returning
nil with no store call — whenever either its name or its namespace is the
empty string; this is strictly broader than the absent sentinel (empty name
and namespace together), as a ref with a non-empty name but empty namespace
is not the sentinel yet is silently skipped, never fetched or deleted. -/
theorem deleteServiceMonitorDeployment_broad_absent :
    (∀ (ref : NamespacedName) (isHCP : Bool) (getRes : StoreGet ServiceMonitor)
        (deleteErr : Option GoErr),
      ref.name = "" ∨ ref.ns = "" →
        DeleteServiceMonitorDeployment ref isHCP getRes deleteErr = ([], none)) ∧
    ({ name := "named-ref", ns := "" } : NamespacedName) ≠ absentRef := by
  constructor
  · intro ref isHCP getRes deleteErr h
    rcases h with h | h <;> simp [DeleteServiceMonitorDeployment, h]
  · decide

/-- C8 witness: a ref with a non-empty name and an empty namespace is skipped
with no store call, even when the store would report the object present. -/
theorem deleteServiceMonitorDeployment_broad_absent_witness :
    DeleteServiceMonitorDeployment { name := "named-ref", ns := "" } false
      (.found { name := "named-ref", ns := "monitor-ns",
                spec := { endpoints := [], selectorMatchLabels := [],
                          namespaceSelectorMatchNames := [] } })
      none = ([], none) :=
  deleteServiceMonitorDeployment_broad_absent.1 _ false _ none (Or.inr rfl)

/-- C4 counterexample: the ref with name "sm" and empty namespace is not the
absent sentinel, yet `DeleteServiceMonitorDeployment` returns nil having
issued no store call at all — in particular, a successful fetch outcome is
not followed by a delete of the fetched object, contradicting the claim's
description of non-absent refs. -/
theorem deleteServiceMonitorDeployment_sentinel_cex :
    ({ name := "sm", ns := "" } : NamespacedName) ≠ absentRef ∧
    DeleteServiceMonitorDeployment { name := "sm", ns := "" } false
      (.found { name := "sm", ns := "monitor-ns",
                spec := { endpoints := [], selectorMatchLabels := [],
                          namespaceSelectorMatchNames := [] } })
      none = ([], none) := by
  exact ⟨by decide, by decide⟩

/-- C4 (amended): `DeleteServiceMonitorDeployment` returns nil without
issuing any store call whenever the ref's name or namespace is empty (a
broader condition than the absent sentinel); when both components are
non-empty, a not-found fetch yields nil with no delete issued, a successful
fetch is followed by a delete of the fetched object, and any fetch or delete
error other than not-found is returned to the caller. -/
theorem deleteServiceMonitorDeployment_ensure_absent
    (ref : NamespacedName) (isHCP : Bool) (deleteErr : Option GoErr)
    (sm : ServiceMonitor) (e : GoErr) :
    (ref.name = "" ∨ ref.ns = "" →
      ∀ getRes, DeleteServiceMonitorDeployment ref isHCP getRes deleteErr = ([], none)) ∧
    (ref.name ≠ "" → ref.ns ≠ "" →
      DeleteServiceMonitorDeployment ref isHCP .notFound deleteErr =
        ([SMOp.get { name := ref.name, ns := ref.ns }], none) ∧
      DeleteServiceMonitorDeployment ref isHCP (.found sm) deleteErr =
        ([SMOp.get { name := ref.name, ns := ref.ns }, SMOp.delete sm], deleteErr) ∧
      DeleteServiceMonitorDeployment ref isHCP (.otherErr e) deleteErr =
        ([SMOp.get { name := ref.name, ns := ref.ns }], some e)) := by
  constructor
  · intro h getRes
    rcases h with h | h <;> simp [DeleteServiceMonitorDeployment, h]
  · intro hn hns
    refine ⟨?_, ?_, ?_⟩ <;> simp [DeleteServiceMonitorDeployment, hn, hns]

/-- C4 witness: with a fully named ref, a found ServiceMonitor is deleted and
the delete outcome is returned. -/
theorem deleteServiceMonitorDeployment_ensure_absent_witness :
    DeleteServiceMonitorDeployment { name := "sm", ns := "monitor-ns" } false
      (.found { name := "sm", ns := "monitor-ns",
                spec := { endpoints := [], selectorMatchLabels := [],
                          namespaceSelectorMatchNames := [] } })
      none =
      ([SMOp.get { name := "sm", ns := "monitor-ns" },
        SMOp.delete { name := "sm", ns := "monitor-ns",
                      spec := { endpoints := [], selectorMatchLabels := [],
                                namespaceSelectorMatchNames := [] } }], none) :=
  ((deleteServiceMonitorDeployment_ensure_absent
      { name := "sm", ns := "monitor-ns" } false none
      { name := "sm", ns := "monitor-ns",
        spec := { endpoints := [], selectorMatchLabels := [],
                  namespaceSelectorMatchNames := [] } }
      GoErr.noHost).2 (by decide) (by decide)).2.1

/-- A RouteMonitor marked for deletion whose status still carries non-absent
derived-resource references and whose finalizer marker is present. -/
def sampleDeletingMonitor : RouteMonitor :=
  { name := "rm"
    ns := "rm-ns"
    spec := { routeName := "route", routeNs := "route-ns"
              skipPrometheusRule := false, slo := .disabled }
    status := { serviceMonitorRef := { name := "rm", ns := "rm-ns" }
                prometheusRuleRef := { name := "rm", ns := "rm-ns" }
                errorStatus := "", routeURL := "https://route.example.com" }
    finalizers := [FinalizerKey] }

/-- Cascade oracles on which every external call succeeds: the accounting
reports no teardown needed, both derived-resource fetches report not-found,
and the final persist succeeds. -/
def benignCascadeOracles : CascadeOracles :=
  { shouldDeleteBBE := .ok false
    bbeAbsentErr := none
    smGet := .notFound
    smDeleteErr := none
    prGet := .notFound
    prDeleteErr := none
    updateErr := none }

/-- C1 counterexample: an invocation of the deletion cascade that reaches and
performs the finalizer removal while both ServiceMonitorRef and
PrometheusRuleRef in the parent's status are non-absent — the cascade never
clears the status references before releasing the finalizer. -/
theorem cascade_refs_not_cleared_cex :
    (EnsureMonitorAndDependenciesAbsent sampleDeletingMonitor
        benignCascadeOracles).removedFinalizer = true ∧
    (EnsureMonitorAndDependenciesAbsent sampleDeletingMonitor
        benignCascadeOracles).status.serviceMonitorRef ≠ absentRef ∧
    (EnsureMonitorAndDependenciesAbsent sampleDeletingMonitor
        benignCascadeOracles).status.prometheusRuleRef ≠ absentRef := by
  decide

/-- Helper: taking the finalizer-removal branch of the cascade implies both
derived-resource deletes returned no error, the status is untouched, and the
current marker moved from present to removed. -/
lemma cascade_removed_implies (rm : RouteMonitor) (o : CascadeOracles) :
    (EnsureMonitorAndDependenciesAbsent rm o).removedFinalizer = true →
      (DeleteServiceMonitorDeployment rm.status.serviceMonitorRef false
          o.smGet o.smDeleteErr).2 = none ∧
      (DeletePrometheusRuleDeployment rm.status.prometheusRuleRef
          o.prGet o.prDeleteErr).2 = none ∧
      (EnsureMonitorAndDependenciesAbsent rm o).status = rm.status ∧
      FinalizerKey ∈ rm.finalizers ∧
      FinalizerKey ∉ (EnsureMonitorAndDependenciesAbsent rm o).finalizers := by
  intro h
  cases hbbe : o.shouldDeleteBBE with
  | error e => simp [EnsureMonitorAndDependenciesAbsent, hbbe] at h
  | ok sd =>
    cases hb : (if sd then o.bbeAbsentErr else none) with
    | some e => simp [EnsureMonitorAndDependenciesAbsent, hbbe, hb] at h
    | none =>
      cases hsm : (DeleteServiceMonitorDeployment rm.status.serviceMonitorRef false
          o.smGet o.smDeleteErr).2 with
      | some e => simp [EnsureMonitorAndDependenciesAbsent, hbbe, hb, hsm] at h
      | none =>
        cases hpr : (DeletePrometheusRuleDeployment rm.status.prometheusRuleRef
            o.prGet o.prDeleteErr).2 with
        | some e => simp [EnsureMonitorAndDependenciesAbsent, hbbe, hb, hsm, hpr] at h
        | none =>
          by_cases hfin : FinalizerKey ∈ rm.finalizers
          · refine ⟨rfl, rfl, ?_, hfin, ?_⟩
            · simp [EnsureMonitorAndDependenciesAbsent, hbbe, hb, hsm, hpr,
                DeleteFinalizer, hfin]
            · simp [EnsureMonitorAndDependenciesAbsent, hbbe, hb, hsm, hpr,
                DeleteFinalizer, hfin, List.mem_filter]
          · simp [EnsureMonitorAndDependenciesAbsent, hbbe, hb, hsm, hpr,
              DeleteFinalizer, hfin] at h

/-- C1 (amended): whenever the deletion cascade reaches and performs the
finalizer removal, both the ServiceMonitor delete and the PrometheusRule
delete have completed without error — the derived resources are confirmed
absent — the current finalizer marker was present and no longer appears in
the resulting finalizer set; the derived-resource references in the parent's
status are left unchanged by the cascade (they are not cleared, hence not
necessarily the absent sentinel at that point). -/
theorem cascade_removal_requires_clean_deletes (rm : RouteMonitor) (o : CascadeOracles) :
    (EnsureMonitorAndDependenciesAbsent rm o).removedFinalizer = true →
      (DeleteServiceMonitorDeployment rm.status.serviceMonitorRef false
          o.smGet o.smDeleteErr).2 = none ∧
      (DeletePrometheusRuleDeployment rm.status.prometheusRuleRef
          o.prGet o.prDeleteErr).2 = none ∧
      (EnsureMonitorAndDependenciesAbsent rm o).status = rm.status ∧
      FinalizerKey ∈ rm.finalizers ∧
      FinalizerKey ∉ (EnsureMonitorAndDependenciesAbsent rm o).finalizers :=
  fun h => cascade_removed_implies rm o h

/-- C1 witness: the amended statement evaluated on a deleting RouteMonitor
with non-absent references and all-benign store outcomes. -/
theorem cascade_removal_requires_clean_deletes_witness :
    (DeleteServiceMonitorDeployment sampleDeletingMonitor.status.serviceMonitorRef false
        benignCascadeOracles.smGet benignCascadeOracles.smDeleteErr).2 = none ∧
    (DeletePrometheusRuleDeployment sampleDeletingMonitor.status.prometheusRuleRef
        benignCascadeOracles.prGet benignCascadeOracles.prDeleteErr).2 = none ∧
    (EnsureMonitorAndDependenciesAbsent sampleDeletingMonitor
        benignCascadeOracles).status = sampleDeletingMonitor.status ∧
    FinalizerKey ∈ sampleDeletingMonitor.finalizers ∧
    FinalizerKey ∉ (EnsureMonitorAndDependenciesAbsent sampleDeletingMonitor
        benignCascadeOracles).finalizers :=
  cascade_removal_requires_clean_deletes sampleDeletingMonitor benignCascadeOracles
    (by decide)

/-- C2: each failing step of the deletion cascade — the shared-infrastructure
accounting call, the shared exporter teardown, the ServiceMonitor delete, or
the PrometheusRule delete — makes `EnsureMonitorAndDependenciesAbsent` return
`Requeue` carrying that error with the parent's finalizer set and status left
unchanged; and the finalizer-removal branch is taken only when both
derived-resource deletes completed without error. -/
theorem cascade_error_paths (rm : RouteMonitor) (o : CascadeOracles) :
    (∀ e, o.shouldDeleteBBE = .error e →
      EnsureMonitorAndDependenciesAbsent rm o =
        ⟨.Requeue, some e, rm.finalizers, rm.status, false⟩) ∧
    (∀ e, o.shouldDeleteBBE = .ok true → o.bbeAbsentErr = some e →
      EnsureMonitorAndDependenciesAbsent rm o =
        ⟨.Requeue, some e, rm.finalizers, rm.status, false⟩) ∧
    (∀ b e, o.shouldDeleteBBE = .ok b → (b = true → o.bbeAbsentErr = none) →
      (DeleteServiceMonitorDeployment rm.status.serviceMonitorRef false
          o.smGet o.smDeleteErr).2 = some e →
      EnsureMonitorAndDependenciesAbsent rm o =
        ⟨.Requeue, some e, rm.finalizers, rm.status, false⟩) ∧
    (∀ b e, o.shouldDeleteBBE = .ok b → (b = true → o.bbeAbsentErr = none) →
      (DeleteServiceMonitorDeployment rm.status.serviceMonitorRef false
          o.smGet o.smDeleteErr).2 = none →
      (DeletePrometheusRuleDeployment rm.status.prometheusRuleRef
          o.prGet o.prDeleteErr).2 = some e →
      EnsureMonitorAndDependenciesAbsent rm o =
        ⟨.Requeue, some e, rm.finalizers, rm.status, false⟩) ∧
    ((EnsureMonitorAndDependenciesAbsent rm o).removedFinalizer = true →
      (DeleteServiceMonitorDeployment rm.status.serviceMonitorRef false
          o.smGet o.smDeleteErr).2 = none ∧
      (DeletePrometheusRuleDeployment rm.status.prometheusRuleRef
          o.prGet o.prDeleteErr).2 = none) := by
  refine ⟨?_, ?_, ?_, ?_, ?_⟩
  · intro e h
    simp [EnsureMonitorAndDependenciesAbsent, h]
  · intro e h1 h2
    simp [EnsureMonitorAndDependenciesAbsent, h1, h2]
  · intro b e h1 h2 hsm
    cases b with
    | false => simp [EnsureMonitorAndDependenciesAbsent, h1, hsm]
    | true => simp [EnsureMonitorAndDependenciesAbsent, h1, h2 rfl, hsm]
  · intro b e h1 h2 hsm hpr
    cases b with
    | false => simp [EnsureMonitorAndDependenciesAbsent, h1, hsm, hpr]
    | true => simp [EnsureMonitorAndDependenciesAbsent, h1, h2 rfl, hsm, hpr]
  · intro h
    exact ⟨(cascade_removed_implies rm o h).1, (cascade_removed_implies rm o h).2.1⟩

/-- C2 witness: a failing accounting call requeues with that error and leaves
the finalizer set and status untouched. -/
theorem cascade_error_paths_witness :
    EnsureMonitorAndDependenciesAbsent sampleDeletingMonitor
      { benignCascadeOracles with shouldDeleteBBE := .error GoErr.noHost } =
      ⟨.Requeue, some GoErr.noHost, sampleDeletingMonitor.finalizers,
        sampleDeletingMonitor.status, false⟩ :=
  (cascade_error_paths sampleDeletingMonitor
    { benignCascadeOracles with shouldDeleteBBE := .error GoErr.noHost }).1
    GoErr.noHost rfl

/-- PrometheusRule-step oracles on which every external call succeeds (the
fetch behind the delete reports not-found). -/
def benignPromOracles : PromOracles :=
  { prGet := .notFound
    prDeleteErr := none
    prUpdateDeployErr := none
    statusUpdateErr := none }

/-- A RouteMonitor whose spec requests skipping the PrometheusRule while its
status still records a non-absent PrometheusRuleRef. -/
def sampleSkipMonitor : RouteMonitor :=
  { name := "rm"
    ns := "rm-ns"
    spec := { routeName := "route", routeNs := "route-ns"
              skipPrometheusRule := true, slo := .disabled }
    status := { serviceMonitorRef := absentRef
                prometheusRuleRef := { name := "rm", ns := "rm-ns" }
                errorStatus := "", routeURL := "https://route.example.com" }
    finalizers := [FinalizerKey] }

/-- C5: in `EnsurePrometheusRuleExists`, with the delete and the status write
succeeding, the skip branch deletes the PrometheusRule, clears the ref,
persists the status exactly when the ref changed, and returns `Continue` when
nothing changed; the empty-SLO branch (skip unset, target resolved, SLO
disabled by configuration, healthy error status) deletes the PrometheusRule,
clears the ref, and returns `Stop` — so the two branches are distinguishable
by their returned signal. -/
theorem ensurePrometheusRule_skip_vs_empty_slo (rm : RouteMonitor) (o : PromOracles)
    (hdel : (DeletePrometheusRuleDeployment rm.status.prometheusRuleRef
        o.prGet o.prDeleteErr).2 = none)
    (hupd : o.statusUpdateErr = none) :
    (rm.spec.skipPrometheusRule = true →
      (EnsurePrometheusRuleExists rm o).ensureAbsentCalled = true ∧
      (EnsurePrometheusRuleExists rm o).status.prometheusRuleRef = absentRef ∧
      ((EnsurePrometheusRuleExists rm o).persisted = true ↔
        rm.status.prometheusRuleRef ≠ absentRef) ∧
      (rm.status.prometheusRuleRef = absentRef →
        EnsurePrometheusRuleExists rm o =
          ⟨.Continue, none, rm.status, false, true, false⟩)) ∧
    (rm.spec.skipPrometheusRule = false → rm.status.errorStatus = "" →
      rm.status.routeURL ≠ "" → rm.spec.slo = SloSpec.disabled →
      (EnsurePrometheusRuleExists rm o).ensureAbsentCalled = true ∧
      (EnsurePrometheusRuleExists rm o).status.prometheusRuleRef = absentRef ∧
      (EnsurePrometheusRuleExists rm o).result = Result.Stop) := by
  constructor
  · intro hskip
    by_cases href : rm.status.prometheusRuleRef = absentRef
    · rw [href] at hdel
      simp [EnsurePrometheusRuleExists, hskip, hdel, hupd, SetResourceReference,
        UpdateMonitorResourceStatus, href]
      rw [← href]
    · simp [EnsurePrometheusRuleExists, hskip, hdel, hupd, SetResourceReference,
        UpdateMonitorResourceStatus, href]
  · intro hskip hes hurl hslo
    by_cases href : rm.status.prometheusRuleRef = absentRef
    · rw [href] at hdel
      simp [EnsurePrometheusRuleExists, hskip, hes, hurl, hslo, hdel, hupd,
        ParseMonitorSLOSpecs, SetErrorStatus, SetResourceReference,
        UpdateMonitorResourceStatus, href]
    · simp [EnsurePrometheusRuleExists, hskip, hes, hurl, hslo, hdel, hupd,
        ParseMonitorSLOSpecs, SetErrorStatus, SetResourceReference,
        UpdateMonitorResourceStatus, href]

/-- C5 witness: the skip branch evaluated on a monitor with a non-absent
PrometheusRuleRef: the ref is cleared and the status persisted. -/
theorem ensurePrometheusRule_skip_vs_empty_slo_witness :
    (EnsurePrometheusRuleExists sampleSkipMonitor benignPromOracles).ensureAbsentCalled
        = true ∧
    (EnsurePrometheusRuleExists sampleSkipMonitor
        benignPromOracles).status.prometheusRuleRef = absentRef ∧
    ((EnsurePrometheusRuleExists sampleSkipMonitor benignPromOracles).persisted = true ↔
      sampleSkipMonitor.status.prometheusRuleRef ≠ absentRef) ∧
    (sampleSkipMonitor.status.prometheusRuleRef = absentRef →
      EnsurePrometheusRuleExists sampleSkipMonitor benignPromOracles =
        ⟨.Continue, none, sampleSkipMonitor.status, false, true, false⟩) :=
  (ensurePrometheusRule_skip_vs_empty_slo sampleSkipMonitor benignPromOracles
    (by decide) rfl).1 rfl

/-- A RouteMonitor with the skip flag unset whose target URL has not been
resolved yet (empty RouteURL, healthy error status). -/
def sampleUnresolvedMonitor : RouteMonitor :=
  { name := "rm"
    ns := "rm-ns"
    spec := { routeName := "route", routeNs := "route-ns"
              skipPrometheusRule := false, slo := .disabled }
    status := { serviceMonitorRef := absentRef
                prometheusRuleRef := absentRef
                errorStatus := "", routeURL := "" }
    finalizers := [FinalizerKey] }

/-- C6 counterexample: on a monitor with the skip flag unset and an empty
RouteURL, `EnsurePrometheusRuleExists` does not return `Requeue` with a
no-target error — it records the error into the status and stops (the
status-persist helper returning `Stop` on a successful write). -/
theorem ensurePrometheusRule_no_target_cex :
    (EnsurePrometheusRuleExists sampleUnresolvedMonitor benignPromOracles).result
        = Result.Stop ∧
    (EnsurePrometheusRuleExists sampleUnresolvedMonitor benignPromOracles).result
        ≠ Result.Requeue := by
  decide

/-- C6 (amended): the no-target `Requeue` guard lives in
`EnsureServiceMonitorExists`: for every monitor whose RouteURL is unresolved
it returns `Requeue` with the no-host error before any store call, leaving
the status untouched; `EnsurePrometheusRuleExists` itself, with the skip flag
unset and an empty RouteURL, never attempts ensureExists on the alert
resource. -/
theorem noTarget_requeue_guard (rm : RouteMonitor) (oSM : SMStepOracles)
    (oPR : PromOracles) :
    rm.status.routeURL = "" →
      EnsureServiceMonitorExists rm oSM =
        ⟨.Requeue, some GoErr.noHost, rm.status, false, false, false⟩ ∧
      (rm.spec.skipPrometheusRule = false →
        (EnsurePrometheusRuleExists rm oPR).existsCalled = false) := by
  intro hurl
  constructor
  · simp [EnsureServiceMonitorExists, hurl]
  · intro hskip
    by_cases hes : rm.status.errorStatus = ""
    · simp [EnsurePrometheusRuleExists, hskip, hurl, hes,
        ParseMonitorSLOSpecs, SetErrorStatus]
    · cases hdel : (DeletePrometheusRuleDeployment rm.status.prometheusRuleRef
          oPR.prGet oPR.prDeleteErr).2 with
      | some e =>
        simp [EnsurePrometheusRuleExists, hskip, hurl, hes,
          ParseMonitorSLOSpecs, SetErrorStatus, hdel]
      | none =>
        by_cases href : rm.status.prometheusRuleRef = absentRef
        · rw [href] at hdel
          simp [EnsurePrometheusRuleExists, hskip, hurl, hes,
            ParseMonitorSLOSpecs, SetErrorStatus, SetResourceReference, hdel, href]
        · simp [EnsurePrometheusRuleExists, hskip, hurl, hes,
            ParseMonitorSLOSpecs, SetErrorStatus, SetResourceReference, hdel, href]

/-- Cluster identifier used by witnesses. -/
def sampleClusterID : String := "osd-cluster-id"

/-- ServiceMonitor-step oracles on which every external call succeeds. -/
def benignSMStepOracles : SMStepOracles :=
  { clusterIDRes := .ok sampleClusterID
    templateUpdateErr := none
    statusUpdateErr := none }

/-- C6 witness: the guard and the alert step evaluated on the unresolved
monitor with all-benign oracles. -/
theorem noTarget_requeue_guard_witness :
    EnsureServiceMonitorExists sampleUnresolvedMonitor benignSMStepOracles =
      ⟨.Requeue, some GoErr.noHost, sampleUnresolvedMonitor.status, false, false, false⟩ ∧
    (sampleUnresolvedMonitor.spec.skipPrometheusRule = false →
      (EnsurePrometheusRuleExists sampleUnresolvedMonitor
          benignPromOracles).existsCalled = false) :=
  ⟨(noTarget_requeue_guard sampleUnresolvedMonitor benignSMStepOracles
      benignPromOracles rfl).1,
   fun _ => (noTarget_requeue_guard sampleUnresolvedMonitor benignSMStepOracles
      benignPromOracles rfl).2 rfl⟩

/-- C7: in `EnsureRouteURLExists`, with a Route exposing a non-empty first
ingress host, equality of the extracted URL with the recorded one yields
`Continue` with no status write, while any difference makes the newly
extracted value overwrite the status field and the status be persisted. -/
theorem ensureRouteURL_new_value_wins (route : Route) (rm : RouteMonitor)
    (uerr : Option GoErr) (ing : RouteIngress) (rest : List RouteIngress)
    (hshape : route.ingress = ing :: rest) (hhost : ing.host ≠ "") :
    (rm.status.routeURL = (if route.tls then httpsScheme ++ ing.host else ing.host) →
      EnsureRouteURLExists route rm uerr =
        ⟨.Continue, none, rm.status, false, false, false⟩) ∧
    (rm.status.routeURL ≠ (if route.tls then httpsScheme ++ ing.host else ing.host) →
      (EnsureRouteURLExists route rm uerr).status.routeURL =
        (if route.tls then httpsScheme ++ ing.host else ing.host) ∧
      (EnsureRouteURLExists route rm uerr).persisted = true) := by
  constructor
  · intro he
    simp [EnsureRouteURLExists, hshape, hhost, he]
  · intro hne
    simp [EnsureRouteURLExists, hshape, hhost, hne]

/-- C7 witness: a TLS Route whose extracted URL differs from the recorded one
overwrites and persists the status URL. -/
theorem ensureRouteURL_new_value_wins_witness :
    (EnsureRouteURLExists { ingress := [{ host := "app.example.com" }], tls := true }
        emptyRouteMonitor none).status.routeURL = "https://app.example.com" ∧
    (EnsureRouteURLExists { ingress := [{ host := "app.example.com" }], tls := true }
        emptyRouteMonitor none).persisted = true := by
  have h := (ensureRouteURL_new_value_wins
      { ingress := [{ host := "app.example.com" }], tls := true }
      emptyRouteMonitor none { host := "app.example.com" } [] rfl (by decide)).2
      (by decide)
  simpa using h

/-- C10: `EnsureRouteURLExists` computes the candidate URL solely from the
first ingress entry and the TLS field — two Routes with non-empty ingress
lists agreeing on the first host and on TLS presence produce identical step
outcomes regardless of further ingress entries — and, for a non-empty first
host, the URL recorded in the resulting status is the first host carrying
the https scheme exactly when TLS is present. -/
theorem ensureRouteURL_first_ingress_only (r1 r2 : Route) (rm : RouteMonitor)
    (uerr : Option GoErr) (i1 i2 : RouteIngress) (t1 t2 : List RouteIngress)
    (h1 : r1.ingress = i1 :: t1) (h2 : r2.ingress = i2 :: t2)
    (hh : i1.host = i2.host) (ht : r1.tls = r2.tls) :
    EnsureRouteURLExists r1 rm uerr = EnsureRouteURLExists r2 rm uerr ∧
    (i1.host ≠ "" →
      (EnsureRouteURLExists r1 rm uerr).status.routeURL =
        (if r1.tls then httpsScheme ++ i1.host else i1.host)) := by
  constructor
  · simp only [EnsureRouteURLExists, h1, h2, hh, ht]
  · intro hhost
    by_cases he : rm.status.routeURL = (if r1.tls then httpsScheme ++ i1.host else i1.host)
    · simp [EnsureRouteURLExists, h1, hhost, he]
    · simp [EnsureRouteURLExists, h1, hhost, he]

/-- C10 witness: appending a second ingress entry leaves the step outcome
unchanged, and the recorded URL is the bare first host when TLS is absent. -/
theorem ensureRouteURL_first_ingress_only_witness :
    EnsureRouteURLExists { ingress := [{ host := "app.example.com" }], tls := false }
        emptyRouteMonitor none =
      EnsureRouteURLExists
        { ingress := [{ host := "app.example.com" }, { host := "other.example.com" }]
          tls := false }
        emptyRouteMonitor none ∧
    (EnsureRouteURLExists { ingress := [{ host := "app.example.com" }], tls := false }
        emptyRouteMonitor none).status.routeURL = "app.example.com" := by
  have h := ensureRouteURL_first_ingress_only
      { ingress := [{ host := "app.example.com" }], tls := false }
      { ingress := [{ host := "app.example.com" }, { host := "other.example.com" }]
        tls := false }
      emptyRouteMonitor none
      { host := "app.example.com" } { host := "app.example.com" }
      [] [{ host := "other.example.com" }] rfl rfl rfl rfl
  exact ⟨h.1, by simpa using h.2 (by decide)⟩

end RouteMonitorOperator
